import Mathlib

/-!
Verification of the year3-money-assessment quiz application.

This file gives a shallow embedding, in Lean 4, of the parts of the
repository that the verified properties talk about:

* `src/utils/validation.ts` — the pure answer validators and the
  `validateAnswer` dispatcher;
* the Zustand quiz store (`quizStore`) — the per-question state machine
  (`skipQuestion`, `submitQuestion`, `getQuestionStatus`,
  `getQuestionProgress`);
* `src/db/database.ts` — the Dexie persistence utilities
  (`dbUtils.saveAnswer`, `dbUtils.updateAttempt`, `dbUtils.createAttempt`).

Modelling conventions:

* JavaScript numbers are modelled as `ℚ` (amounts, scores) or `Int`
  (timestamps).  The epsilon comparisons in the source exist to absorb
  floating-point error; the comparison logic itself is exact.
* A JavaScript object used as a `Record<number, T>` is modelled as an
  association list `List (Nat × T)` with first-match lookup (`recGet`)
  and replace-or-append update (`recSet`), which matches object-spread
  update `{...m, [k]: v}` on records with unique keys.
* Fallible database code returns `Except String`; a thrown exception is
  an `.error`.  Asynchronous calls are sequenced explicitly, as the
  source awaits them.
-/

/-- Lookup in a JS-record modelled as an association list: first entry
whose key matches, as `m[k]`. -/
def recGet {κ α : Type} [DecidableEq κ] : List (κ × α) → κ → Option α
  | [], _ => none
  | (k', v') :: rest, k => if k' = k then some v' else recGet rest k

/-- Update of a JS-record modelled as an association list: replace the
entry for `k` if present, else append, as `{...m, [k]: v}`. -/
def recSet {κ α : Type} [DecidableEq κ] : List (κ × α) → κ → α → List (κ × α)
  | [], k, v => [(k, v)]
  | (k', v') :: rest, k, v => if k' = k then (k, v) :: rest else (k', v') :: recSet rest k v

/-! ## Embedding of `src/utils/validation.ts` -/

/-- Currency denomination kind from the `CurrencyItem` interface. -/
inductive CurrencyKind : Type
  | coin
  | note
deriving DecidableEq

/-- The `CurrencyItem` interface: id, face value, display name, kind and
image metadata.  Only `value` is read by the validators. -/
structure CurrencyItem : Type where
  id : String
  value : ℚ
  name : String
  kind : CurrencyKind
  image : String
  imagePath : String
deriving DecidableEq

/-- The `QuestionValidationResult` interface from `types/questions`. -/
structure QuestionValidationResult : Type where
  isCorrect : Bool
  feedback : String
  score : ℚ
deriving DecidableEq

/-- Sort direction parameter of `validateSortingAnswer`. -/
inductive SortDirection : Type
  | ascending
  | descending
deriving DecidableEq

/-- Model of `Number.prototype.toFixed(2)` for the exact rationals that
reach it here: round to whole cents and print with two decimals. -/
def jsToFixed2 (q : ℚ) : String :=
  let cents : Int := round (q * 100)
  let n := cents.natAbs
  let sign := if cents < 0 then "-" else ""
  let c := n % 100
  sign ++ toString (n / 100) ++ "." ++ (if c < 10 then "0" ++ toString c else toString c)

/-- The `answer.reduce((sum, item) => sum + item.value, 0)` fold from
`validateDragDropAnswer`. -/
def totalValue (answer : List CurrencyItem) : ℚ :=
  answer.foldl (fun sum item => sum + item.value) 0

/-- The `maxItems && answer.length > maxItems` guard of
`validateDragDropAnswer` (a JS number is falsy when `0`). -/
def dragDropTooMany (answer : List CurrencyItem) (maxItems : Option Nat) : Bool :=
  match maxItems with
  | some m => decide (m ≠ 0) && decide (answer.length > m)
  | none => false

/-- Over-target feedback string built by `validateDragDropAnswer`. -/
def overFeedback (excess : ℚ) : String :=
  "You have $" ++ jsToFixed2 excess ++ " too much. Try removing some items."

/-- Under-target feedback string built by `validateDragDropAnswer`. -/
def underFeedback (shortfall : ℚ) : String :=
  "You need $" ++ jsToFixed2 shortfall ++ " more. Try adding more items."

/-- Core of `validateDragDropAnswer(answer, targetAmount, maxItems)` on a
well-typed array argument (the missing/non-array branch lives in the
`AnswerVal` wrapper below). -/
def validateDragDropAnswer (answer : List CurrencyItem) (targetAmount : ℚ)
    (maxItems : Option Nat) : QuestionValidationResult :=
  if dragDropTooMany answer maxItems then
    ⟨false, "You can only select up to " ++ toString (maxItems.getD 0) ++ " items.", 0⟩
  else if |totalValue answer - targetAmount| < 0.01 then
    ⟨true, "Perfect! You have the exact amount.", 1⟩
  else if totalValue answer > targetAmount then
    ⟨false, overFeedback (totalValue answer - targetAmount), 0⟩
  else
    ⟨false, underFeedback (targetAmount - totalValue answer), 0⟩

/-- One iteration test of the ordering loop in `validateSortingAnswer`:
`ascending && prev > current` or `descending && prev < current`. -/
def sortingViolation (dir : SortDirection) (prev cur : ℚ) : Bool :=
  match dir with
  | .ascending => decide (prev > cur)
  | .descending => decide (prev < cur)

/-- The `for (let i = 1; ...)` loop of `validateSortingAnswer`: scan
adjacent pairs, failing at the first violation. -/
def checkSortedFrom (dir : SortDirection) : CurrencyItem → List CurrencyItem → Bool
  | _, [] => true
  | prev, cur :: rest =>
    if sortingViolation dir prev.value cur.value then false
    else checkSortedFrom dir cur rest

/-- Direction-specific failure feedback of `validateSortingAnswer` (the
message depends only on the direction, not on which pair failed). -/
def sortingFailFeedback (dir : SortDirection) : String :=
  match dir with
  | .ascending => "Items are not in ascending order. Sort from lowest to highest value."
  | .descending => "Items are not in descending order. Sort from highest to lowest value."

/-- Core of `validateSortingAnswer(answer, expectedDirection)` on a
well-typed array argument; the empty array is rejected as in the source. -/
def validateSortingAnswer (answer : List CurrencyItem) (dir : SortDirection) :
    QuestionValidationResult :=
  match answer with
  | [] => ⟨false, "Please arrange the items in order.", 0⟩
  | first :: rest =>
    if checkSortedFrom dir first rest then
      ⟨true, "Perfect! The items are sorted correctly.", 1⟩
    else
      ⟨false, sortingFailFeedback dir, 0⟩

/-- Core of `validateMultipleChoiceAnswer(answer, correctAnswer)` on a
string argument (the empty string is the falsy `!answer` case). -/
def validateMultipleChoiceAnswer (answer correctAnswer : String) : QuestionValidationResult :=
  if answer = "" then
    ⟨false, "Please select an answer.", 0⟩
  else
    let isCorrect := decide (answer = correctAnswer)
    ⟨isCorrect,
     if isCorrect then "Correct! Well done." else "Incorrect. Please try again.",
     if isCorrect then 1 else 0⟩

def digitsToNat (cs : List Char) : Nat :=
  cs.foldl (fun n c => n * 10 + (c.toNat - 48)) 0

/-- Model of JS `parseFloat` for the cleaned inputs this app produces:
optional sign, then the longest `digits[.digits]` prefix; `none` models
`NaN`.  (Exponents and `Infinity` are not reachable here.) -/
def jsParseFloat (s : String) : Option ℚ :=
  let cs := s.toList
  let signAndRest : ℚ × List Char :=
    match cs with
    | '-' :: r => (-1, r)
    | '+' :: r => (1, r)
    | r => (1, r)
  let intPart := signAndRest.2.takeWhile Char.isDigit
  let afterInt := signAndRest.2.dropWhile Char.isDigit
  let fracPart :=
    match afterInt with
    | '.' :: r => r.takeWhile Char.isDigit
    | _ => []
  if intPart.isEmpty && fracPart.isEmpty then none
  else some (signAndRest.1 *
    ((digitsToNat intPart : ℚ) + (digitsToNat fracPart : ℚ) / (10 ^ fracPart.length)))

/-- Core of `validateTextInputAnswer(answer, correctAnswer, tolerance)` on
a string argument: strip `$` and `,`, parse, then compare within the
tolerance (default `0.01` at the call sites). -/
def validateTextInputAnswer (answer : String) (correctAnswer : ℚ) (tolerance : ℚ) :
    QuestionValidationResult :=
  if answer = "" || answer.trim = "" then
    ⟨false, "Please enter an answer.", 0⟩
  else
    let cleanAnswer := ((answer.toList.filter (fun c => c != '$' && c != ',')).asString).trim
    match jsParseFloat cleanAnswer with
    | none => ⟨false, "Please enter a valid number.", 0⟩
    | some numericAnswer =>
      if |numericAnswer - correctAnswer| ≤ tolerance then
        ⟨true, "Correct! Well done.", 1⟩
      else
        ⟨false, "Incorrect. The correct answer is $" ++ jsToFixed2 correctAnswer ++ ".", 0⟩

/-- Core of `validateTrueFalseAnswer(answer, correctAnswer)` on a boolean
argument (a supplied boolean is never `undefined`/`null`). -/
def validateTrueFalseAnswer (answer correctAnswer : Bool) : QuestionValidationResult :=
  let isCorrect := answer == correctAnswer
  ⟨isCorrect,
   if isCorrect then "Correct! Well done." else "Incorrect. Please try again.",
   if isCorrect then 1 else 0⟩

/-- The dynamically typed (`any`) answer payload reaching `validateAnswer`:
an array of currency items, a boolean, or a string. -/
inductive AnswerVal : Type
  | items (l : List CurrencyItem)
  | bool (b : Bool)
  | str (s : String)
deriving DecidableEq

/-- `validateDragDropAnswer` as called with an `any` payload: a non-array
fails the `!answer || !Array.isArray(answer)` guard. -/
def validateDragDropAnswerV (a : AnswerVal) (targetAmount : ℚ) (maxItems : Option Nat) :
    QuestionValidationResult :=
  match a with
  | .items l => validateDragDropAnswer l targetAmount maxItems
  | _ => ⟨false, "Please select some currency items.", 0⟩

/-- `validateSortingAnswer` as called with an `any` payload: a non-array
fails the `!answer || !Array.isArray(answer) || answer.length === 0`
guard. -/
def validateSortingAnswerV (a : AnswerVal) (dir : SortDirection) : QuestionValidationResult :=
  match a with
  | .items l => validateSortingAnswer l dir
  | _ => ⟨false, "Please arrange the items in order.", 0⟩

/-- `validateMultipleChoiceAnswer` as called with an `any` payload:
`false` and `""` are falsy (`Please select an answer.`); any other
non-string is truthy but never strictly equal to the correct string. -/
def validateMultipleChoiceAnswerV (a : AnswerVal) (correctAnswer : String) :
    QuestionValidationResult :=
  match a with
  | .str s => validateMultipleChoiceAnswer s correctAnswer
  | .bool b =>
    if b then ⟨false, "Incorrect. Please try again.", 0⟩
    else ⟨false, "Please select an answer.", 0⟩
  | .items _ => ⟨false, "Incorrect. Please try again.", 0⟩

/-- `validateTrueFalseAnswer` as called with an `any` payload: non-boolean
payloads pass the `undefined`/`null` guard and fail strict equality. -/
def validateTrueFalseAnswerV (a : AnswerVal) (correctAnswer : Bool) : QuestionValidationResult :=
  match a with
  | .bool b => validateTrueFalseAnswer b correctAnswer
  | _ => ⟨false, "Incorrect. Please try again.", 0⟩

/-- `validateTextInputAnswer` as called with an `any` payload.  `false` is
falsy and hits the missing-answer branch; `true` and arrays reach
`answer.replace`/`answer.trim` and raise a `TypeError`, modelled as
`.error ()` and caught by the `try`/`catch` in `validateAnswer`. -/
def validateTextInputAnswerV (a : AnswerVal) (correctAnswer : ℚ) (tolerance : ℚ) :
    Except Unit QuestionValidationResult :=
  match a with
  | .str s => .ok (validateTextInputAnswer s correctAnswer tolerance)
  | .bool b => if b then .error () else .ok ⟨false, "Please enter an answer.", 0⟩
  | .items _ => .error ()

def validateQuestion1 (a : AnswerVal) : Except Unit QuestionValidationResult :=
  .ok (validateDragDropAnswerV a 0.50 (some 5))

def validateQuestion2 (a : AnswerVal) : Except Unit QuestionValidationResult :=
  .ok (validateDragDropAnswerV a 1.00 (some 5))

def validateQuestion3 (a : AnswerVal) : Except Unit QuestionValidationResult :=
  .ok (validateDragDropAnswerV a 5.00 (some 2))

def validateQuestion4 (a : AnswerVal) : Except Unit QuestionValidationResult :=
  .ok (validateDragDropAnswerV a 2.50 (some 5))

def validateQuestion5 (a : AnswerVal) : Except Unit QuestionValidationResult :=
  .ok (validateSortingAnswerV a .ascending)

def validateQuestion6 (a : AnswerVal) : Except Unit QuestionValidationResult :=
  .ok (validateSortingAnswerV a .descending)

def validateQuestion7 (a : AnswerVal) : Except Unit QuestionValidationResult :=
  .ok (validateTrueFalseAnswerV a true)

def validateQuestion8 (a : AnswerVal) : Except Unit QuestionValidationResult :=
  .ok (validateMultipleChoiceAnswerV a "D")

def validateQuestion9 (a : AnswerVal) : Except Unit QuestionValidationResult :=
  validateTextInputAnswerV a 14.00 0.01

def validateQuestion10 (a : AnswerVal) : Except Unit QuestionValidationResult :=
  validateTextInputAnswerV a 2.25 0.01

/-- The `validators` record literal of `validateAnswer`, keyed by
question id. -/
def validatorsRec : List (Nat × (AnswerVal → Except Unit QuestionValidationResult)) :=
  [(1, validateQuestion1), (2, validateQuestion2), (3, validateQuestion3),
   (4, validateQuestion4), (5, validateQuestion5), (6, validateQuestion6),
   (7, validateQuestion7), (8, validateQuestion8), (9, validateQuestion9),
   (10, validateQuestion10)]

/-- The `validators[questionId]` lookup of `validateAnswer`. -/
def validatorFor (questionId : Nat) : Option (AnswerVal → Except Unit QuestionValidationResult) :=
  recGet validatorsRec questionId

/-- The exported `validateAnswer(questionId, answer)` dispatcher: unknown
ids produce the validator-not-found result, and an exception inside a
validator is caught and turned into the generic error result. -/
def validateAnswer (questionId : Nat) (answer : AnswerVal) : QuestionValidationResult :=
  match validatorFor questionId with
  | none => ⟨false, "No validator found for question " ++ toString questionId ++ ".", 0⟩
  | some validator =>
    match validator answer with
    | .ok r => r
    | .error _ =>
      ⟨false, "An error occurred while validating your answer. Please try again.", 0⟩

/-! ## Embedding of the quiz store state machine (`quizStore`) -/

/-- The `QuestionStatus` union type. -/
inductive QuestionStatus : Type
  | pending
  | skipped
  | submitted
  | answered
deriving DecidableEq

/-- The `QuestionState` interface: status plus optional answer,
timestamps and cached validation result. -/
structure QuestionState : Type where
  status : QuestionStatus
  answer : Option String
  submittedAt : Option Int
  skippedAt : Option Int
  validationResult : Option QuestionValidationResult
deriving DecidableEq

/-- Spreading a missing `questionStates[questionId]` entry yields an
object with no optional fields set; the status written over it makes the
base status irrelevant. -/
def emptyQuestionState : QuestionState :=
  ⟨.pending, none, none, none, none⟩

/-- The slice of the store state (`QuizState`) that the status-machine
actions read and write: `answers`, `questionStates` and
`validationResults`, each a `Record<number, _>`. -/
structure QuizState : Type where
  answers : List (Nat × String)
  questionStates : List (Nat × QuestionState)
  validationResults : List (Nat × QuestionValidationResult)
deriving DecidableEq

/-- The `answer || state.answers[questionId]` fallback in
`submitQuestion`: an empty string is falsy. -/
def jsOrStr (a b : Option String) : Option String :=
  match a with
  | some s => if s = "" then b else some s
  | none => b

/-- JS truthiness filter on an optional string: `undefined` and `""` are
falsy. -/
def truthyStr (o : Option String) : Option String :=
  match o with
  | some s => if s = "" then none else some s
  | none => none

/-- The `currentAnswer` computed by `submitQuestion` together with its
`if (!currentAnswer)` guard. -/
def effectiveAnswer (provided stored : Option String) : Option String :=
  truthyStr (jsOrStr provided stored)

/-- `skipQuestion(questionId)`: unconditionally writes the question state
entry with status `skipped` and the `skippedAt` timestamp, preserving any
other fields of an existing entry.  (The follow-up
`dbUtils.updateAnswerStatus` call is fire-and-forget and does not touch
the store state, so it is not part of this model.) -/
def skipQuestion (questionId : Nat) (timestamp : Int) (s : QuizState) : QuizState :=
  let base := (recGet s.questionStates questionId).getD emptyQuestionState
  { s with
    questionStates :=
      recSet s.questionStates questionId
        { base with status := .skipped, skippedAt := some timestamp } }

/-- `submitQuestion(questionId, answer?)`: with no truthy provided or
stored answer it warns and returns with the state unchanged; otherwise it
stores the answer and writes the question state entry with status
`submitted` and the `submittedAt` timestamp.  No validation is invoked. -/
def submitQuestion (questionId : Nat) (answer : Option String) (timestamp : Int)
    (s : QuizState) : QuizState :=
  match effectiveAnswer answer (recGet s.answers questionId) with
  | none => s
  | some currentAnswer =>
    let base := (recGet s.questionStates questionId).getD emptyQuestionState
    { s with
      answers := recSet s.answers questionId currentAnswer,
      questionStates :=
        recSet s.questionStates questionId
          { base with
            status := .submitted,
            answer := some currentAnswer,
            submittedAt := some timestamp } }

/-- `getQuestionStatus(questionId)`: the entry status, defaulting to
`pending`. -/
def getQuestionStatus (s : QuizState) (questionId : Nat) : QuestionStatus :=
  ((recGet s.questionStates questionId).map QuestionState.status).getD .pending

/-- The `QuestionProgress` interface returned by `getQuestionProgress`. -/
structure QuestionProgress : Type where
  totalQuestions : Nat
  pendingQuestions : Nat
  skippedQuestions : Nat
  submittedQuestions : Nat
  answeredQuestions : Nat
  progressPercentage : ℚ
deriving DecidableEq

/-- `getQuestionProgress()`: counts over `Object.values(state.questionStates)`
— the questions that have a recorded state, not the fixed question count
of the quiz — and the percentage `(submitted + answered) / total * 100`
over that same tracked total. -/
def getQuestionProgress (s : QuizState) : QuestionProgress :=
  let questionStates := s.questionStates.map Prod.snd
  let totalQuestions := questionStates.length
  let pendingQuestions := (questionStates.filter (fun q => decide (q.status = .pending))).length
  let skippedQuestions := (questionStates.filter (fun q => decide (q.status = .skipped))).length
  let submittedQuestions := (questionStates.filter (fun q => decide (q.status = .submitted))).length
  let answeredQuestions := (questionStates.filter (fun q => decide (q.status = .answered))).length
  let progressPercentage : ℚ :=
    if totalQuestions > 0 then
      ((submittedQuestions : ℚ) + (answeredQuestions : ℚ)) / (totalQuestions : ℚ) * 100
    else 0
  ⟨totalQuestions, pendingQuestions, skippedQuestions, submittedQuestions,
   answeredQuestions, progressPercentage⟩

/-! ## Embedding of `src/db/database.ts` (`dbUtils`) -/

/-- The `StudentAttempt` interface (the optional auto-increment `id` is
the key of the table entry). -/
structure StudentAttempt : Type where
  studentId : String
  quizId : String
  timestamp : Int
  completed : Bool
  score : Option ℚ
deriving DecidableEq

/-- The `Answer` interface of the database module (the optional
auto-increment `id` is the key of the table entry). -/
structure AnswerRec : Type where
  attemptId : Nat
  questionId : Nat
  answer : String
  isCorrect : Option Bool
deriving DecidableEq

/-- The `Student` interface. -/
structure Student : Type where
  id : String
  name : String
  grade : String
  lastAttempt : Option Int
  totalAttempts : Nat
deriving DecidableEq

/-- The Dexie store: one table per schema entry, plus the auto-increment
counters for the `++id` primary keys. -/
structure QuizDatabase : Type where
  students : List (String × Student)
  studentAttempts : List (Nat × StudentAttempt)
  answers : List (Nat × AnswerRec)
  nextAttemptId : Nat
  nextAnswerId : Nat
deriving DecidableEq

/-- The module-private `validateAnswer(answer)` record check of
`database.ts` (renamed here to avoid the clash with the validator
dispatcher of `validation.ts`): `0` ids and the empty string are falsy. -/
def validateAnswerRecord (a : AnswerRec) : Except String Unit :=
  if a.attemptId = 0 || a.questionId = 0 then
    .error "Answer requires attemptId and questionId"
  else if a.answer = "" then
    .error "Answer requires answer field"
  else
    .ok ()

/-- The module-private `validateStudentAttempt(attempt)` record check:
empty ids are falsy and the timestamp must be a positive number. -/
def validateStudentAttempt (a : StudentAttempt) : Except String Unit :=
  if a.studentId = "" || a.quizId = "" then
    .error "StudentAttempt requires studentId and quizId"
  else if a.timestamp ≤ 0 then
    .error "StudentAttempt requires valid timestamp"
  else
    .ok ()

/-- `dbUtils.saveAnswer(answer)`: validate, then `db.answers.add` — an
unconditional insert under a fresh auto-increment id.  There is no
lookup of an existing record for the same `attemptId`/`questionId` and no
check of the attempt's `completed` flag. -/
def dbUtils_saveAnswer (db : QuizDatabase) (a : AnswerRec) :
    Except String (Nat × QuizDatabase) :=
  match validateAnswerRecord a with
  | .error e => .error e
  | .ok _ =>
    .ok (db.nextAnswerId,
      { db with
        answers := db.answers ++ [(db.nextAnswerId, a)],
        nextAnswerId := db.nextAnswerId + 1 })

/-- A `Partial<StudentAttempt>` update object. -/
structure AttemptUpdate : Type where
  studentId : Option String
  quizId : Option String
  timestamp : Option Int
  completed : Option Bool
  score : Option ℚ
deriving DecidableEq

/-- The `{ ...existing, ...updates }` merge in `dbUtils.updateAttempt`. -/
def applyAttemptUpdate (a : StudentAttempt) (u : AttemptUpdate) : StudentAttempt :=
  { studentId := u.studentId.getD a.studentId,
    quizId := u.quizId.getD a.quizId,
    timestamp := u.timestamp.getD a.timestamp,
    completed := u.completed.getD a.completed,
    score := match u.score with | some v => some v | none => a.score }

/-- `dbUtils.updateAttempt(attemptId, updates)`: throw when the attempt is
missing, validate the merged record, then update it in place.
`completeQuiz` calls this with `{ completed: true, score }`. -/
def dbUtils_updateAttempt (db : QuizDatabase) (attemptId : Nat) (u : AttemptUpdate) :
    Except String QuizDatabase :=
  match recGet db.studentAttempts attemptId with
  | none => .error ("Attempt with id " ++ toString attemptId ++ " not found")
  | some existing =>
    let updated := applyAttemptUpdate existing u
    match validateStudentAttempt updated with
    | .error e => .error e
    | .ok _ => .ok { db with studentAttempts := recSet db.studentAttempts attemptId updated }

/-- `dbUtils.createAttempt(attempt)`: validate, `db.studentAttempts.add`
(outside any transaction), then a `db.transaction` over the `students`
and `studentAttempts` tables that — when the student record exists —
increments `totalAttempts` and sets `lastAttempt`.  The flags `addOk` and
`updateOk` model whether the two underlying Dexie writes succeed; a
`false` flag is the storage engine rejecting that write.  A failing
transaction rolls back only its own write: the earlier `add` has already
committed, so the inserted attempt record survives the error. -/
def dbUtils_createAttempt (db : QuizDatabase) (attempt : StudentAttempt)
    (addOk updateOk : Bool) (now : Int) : Except String Nat × QuizDatabase :=
  match validateStudentAttempt attempt with
  | .error e => (.error e, db)
  | .ok _ =>
    if addOk = false then (.error "StorageError", db)
    else
      let id := db.nextAttemptId
      let db1 : QuizDatabase :=
        { db with
          studentAttempts := db.studentAttempts ++ [(id, attempt)],
          nextAttemptId := id + 1 }
      match recGet db1.students attempt.studentId with
      | none => (.ok id, db1)
      | some student =>
        if updateOk then
          (.ok id,
            { db1 with
              students :=
                recSet db1.students attempt.studentId
                  { student with
                    totalAttempts := student.totalAttempts + 1,
                    lastAttempt := some now } })
        else (.error "StorageError", db1)

/-- Discriminator for `Except` results, used to state that a database
call succeeded or failed. -/
def isOkB {ε α : Type} : Except ε α → Bool
  | .ok _ => true
  | .error _ => false

/-- Project the database out of a `saveAnswer`-style result, with a
fallback for the error case. -/
def dbAfter (r : Except String (Nat × QuizDatabase)) (fallback : QuizDatabase) : QuizDatabase :=
  match r with
  | .ok p => p.2
  | .error _ => fallback

/-- Project the database out of an `updateAttempt`-style result, with a
fallback for the error case. -/
def dbOrElse (r : Except String QuizDatabase) (fallback : QuizDatabase) : QuizDatabase :=
  match r with
  | .ok d => d
  | .error _ => fallback

/-- Specification-side count of tracked question states with a given
status, for comparison with `getQuestionProgress`. -/
def countStatus (st : QuestionStatus) (s : QuizState) : Nat :=
  (s.questionStates.map Prod.snd).countP (fun q => decide (q.status = st))

/-! ## Example data for concrete evaluations -/

/-- A fifty-cent coin from the currency catalog. -/
def coin50 : CurrencyItem :=
  ⟨"coin-50c", 0.50, "50 cents", .coin, "50c.svg", "/images/currency/50c.svg"⟩

/-- A two-dollar coin from the currency catalog. -/
def coin2a : CurrencyItem :=
  ⟨"coin-2d-a", 2, "2 dollars", .coin, "2d.svg", "/images/currency/2d.svg"⟩

/-- A second two-dollar coin (drag-and-drop answers may repeat a
denomination under distinct item ids). -/
def coin2b : CurrencyItem :=
  ⟨"coin-2d-b", 2, "2 dollars", .coin, "2d.svg", "/images/currency/2d.svg"⟩

/-- A one-dollar coin from the currency catalog. -/
def coin1 : CurrencyItem :=
  ⟨"coin-1d", 1, "1 dollar", .coin, "1d.svg", "/images/currency/1d.svg"⟩

/-- A five-dollar note from the currency catalog. -/
def note5 : CurrencyItem :=
  ⟨"note-5d", 5, "5 dollars", .note, "5d.svg", "/images/currency/5d.svg"⟩

/-- Tracker state with a stored (but not yet submitted) answer for
question 1 and no tracked question states. -/
def c1s : QuizState := ⟨[(1, "answer-1")], [], []⟩

/-- Tracker state whose only tracked question state is a submitted
question 1, inside a quiz whose fixed question count is 10. -/
def c5s : QuizState := ⟨[], [(1, ⟨.submitted, some "x", some 5, none, none⟩)], []⟩

/-- The fresh tracker state right after `startQuiz`: no answers and no
tracked question states. -/
def c6s : QuizState := ⟨[], [], []⟩

/-- An answer record for question 1 of attempt 1. -/
def c2a : AnswerRec := ⟨1, 1, "fifty", none⟩

/-- A database holding one open attempt (id 1) and no answers. -/
def c2db0 : QuizDatabase := ⟨[], [(1, ⟨"s1", "q1", 5, false, none⟩)], [], 2, 1⟩

/-- The database after saving `c2a` once. -/
def c2db1 : QuizDatabase := dbAfter (dbUtils_saveAnswer c2db0 c2a) c2db0

/-- The database after saving `c2a` twice. -/
def c2db2 : QuizDatabase := dbAfter (dbUtils_saveAnswer c2db1 c2a) c2db1

/-- An answer record appended after the attempt is completed. -/
def c3a : AnswerRec := ⟨1, 1, "late-answer", none⟩

/-- The `completeQuiz` update object: `{ completed: true, score: 85 }`. -/
def c3upd : AttemptUpdate := ⟨none, none, none, some true, some 85⟩

/-- A database holding one open attempt (id 1) and no answers. -/
def c3db0 : QuizDatabase := ⟨[], [(1, ⟨"s1", "q1", 5, false, none⟩)], [], 2, 1⟩

/-- The database after completing attempt 1. -/
def c3db1 : QuizDatabase := dbOrElse (dbUtils_updateAttempt c3db0 1 c3upd) c3db0

/-- A database holding one already-completed attempt (id 1). -/
def c3dbW : QuizDatabase := ⟨[], [(1, ⟨"s1", "q1", 5, true, some 85⟩)], [], 2, 1⟩

/-- A registered student with no attempts yet. -/
def c4student : Student := ⟨"s1", "Sam", "3A", none, 0⟩

/-- A valid new attempt record for that student. -/
def c4att : StudentAttempt := ⟨"s1", "q1", 5, false, none⟩

/-- A database holding the student and no attempts. -/
def c4db0 : QuizDatabase := ⟨[("s1", c4student)], [], [], 1, 1⟩

/-- The selection for question 3 (target $5.00, at most 2 items) made of
three coins summing to exactly $5.00. -/
def q3items : List CurrencyItem := [coin2a, coin2b, coin1]

/-! ## Helper lemmas -/

theorem recGet_recSet_self {κ α : Type} [DecidableEq κ] (m : List (κ × α)) (k : κ) (v : α) :
    recGet (recSet m k v) k = some v := by
  induction m with
  | nil => simp [recSet, recGet]
  | cons p rest ih =>
    obtain ⟨k', v'⟩ := p
    by_cases h : k' = k
    · simp [recSet, recGet, h]
    · simp [recSet, recGet, h, ih]

theorem checkSortedFrom_eq_true (dir : SortDirection) (x : CurrencyItem)
    (rest : List CurrencyItem)
    (h : List.Chain (fun a b => sortingViolation dir a.value b.value = false) x rest) :
    checkSortedFrom dir x rest = true := by
  induction rest generalizing x with
  | nil => rfl
  | cons y ys ih =>
    cases h with
    | cons hr hc => simp [checkSortedFrom, hr, ih y hc]

theorem validatorFor_eq_none (questionId : Nat) (h : questionId = 0 ∨ 10 < questionId) :
    validatorFor questionId = none := by
  have h1 : (1 : Nat) ≠ questionId := by omega
  have h2 : (2 : Nat) ≠ questionId := by omega
  have h3 : (3 : Nat) ≠ questionId := by omega
  have h4 : (4 : Nat) ≠ questionId := by omega
  have h5 : (5 : Nat) ≠ questionId := by omega
  have h6 : (6 : Nat) ≠ questionId := by omega
  have h7 : (7 : Nat) ≠ questionId := by omega
  have h8 : (8 : Nat) ≠ questionId := by omega
  have h9 : (9 : Nat) ≠ questionId := by omega
  have h10 : (10 : Nat) ≠ questionId := by omega
  simp [validatorFor, validatorsRec, recGet, h1, h2, h3, h4, h5, h6, h7, h8, h9, h10]

/-! ## Claim theorems -/

/-- C1, counterexample: submitting question 1 (which has a stored answer)
stores the answer, sets status `submitted` and stamps `submittedAt`, but
does not trigger validation — the entry's `validationResult` and the
store's `validationResults` record both stay empty, contrary to the
claim that submit populates `validationResult`. -/
theorem C1_counterexample :
    recGet (submitQuestion 1 none 5 c1s).questionStates 1 =
      some ⟨.submitted, some "answer-1", some 5, none, none⟩ ∧
    recGet (submitQuestion 1 none 5 c1s).validationResults 1 = none := by decide

/-- C1, amended: on success `submitQuestion` stores the effective answer,
sets the question's status to `submitted` and stamps `submittedAt`, but
it does not trigger validation: the entry's `validationResult` and the
`validationResults` record are left exactly as they were. -/
theorem C1_amended (s : QuizState) (questionId : Nat) (ans : Option String) (t : Int)
    (a : String) (h : effectiveAnswer ans (recGet s.answers questionId) = some a) :
    recGet (submitQuestion questionId ans t s).answers questionId = some a ∧
    (recGet (submitQuestion questionId ans t s).questionStates questionId).map
      QuestionState.status = some .submitted ∧
    (recGet (submitQuestion questionId ans t s).questionStates questionId).map
      QuestionState.submittedAt = some (some t) ∧
    (recGet (submitQuestion questionId ans t s).questionStates questionId).bind
      QuestionState.validationResult =
      (recGet s.questionStates questionId).bind QuestionState.validationResult ∧
    (submitQuestion questionId ans t s).validationResults = s.validationResults := by
  unfold submitQuestion
  rw [h]
  refine ⟨?_, ?_, ?_, ?_, rfl⟩
  · simp [recGet_recSet_self]
  · simp [recGet_recSet_self]
  · simp [recGet_recSet_self]
  · cases hq : recGet s.questionStates questionId <;>
      simp [hq, recGet_recSet_self, emptyQuestionState]

/-- C1, witness: the amended theorem applied to a state with a stored
answer for question 1. -/
theorem C1_amended_witness :
    effectiveAnswer none (recGet c1s.answers 1) = some "answer-1" ∧
    recGet (submitQuestion 1 none 5 c1s).answers 1 = some "answer-1" :=
  ⟨by decide, (C1_amended c1s 1 none 5 "answer-1" (by decide)).1⟩

/-- C5, counterexample: in a state where exactly one of the quiz's ten
questions has a tracked state (and it is submitted), `getQuestionProgress`
reports 100 percent, whereas the claimed formula over the fixed question
count of the quiz gives (1 / 10) * 100 = 10 percent. -/
theorem C5_counterexample :
    (getQuestionProgress c5s).submittedQuestions +
      (getQuestionProgress c5s).answeredQuestions = 1 ∧
    (getQuestionProgress c5s).progressPercentage = 100 ∧
    ((1 : ℚ) / 10) * 100 = 10 ∧
    (getQuestionProgress c5s).progressPercentage ≠ 10 := by
  have hp : (getQuestionProgress c5s).progressPercentage = 100 := by
    simp [getQuestionProgress, c5s]
  refine ⟨by decide, hp, by norm_num, by rw [hp]; norm_num⟩

/-- C5, amended: `getQuestionProgress` returns the per-status counts of
the tracked question states, and its percentage is
(submitted + answered) / tracked * 100 over the number of questions that
have a tracked state — not over the fixed question count of the quiz —
with 0 when nothing is tracked yet. -/
theorem C5_amended (s : QuizState) :
    (getQuestionProgress s).totalQuestions = s.questionStates.length ∧
    (getQuestionProgress s).pendingQuestions = countStatus .pending s ∧
    (getQuestionProgress s).skippedQuestions = countStatus .skipped s ∧
    (getQuestionProgress s).submittedQuestions = countStatus .submitted s ∧
    (getQuestionProgress s).answeredQuestions = countStatus .answered s ∧
    (getQuestionProgress s).progressPercentage =
      (if s.questionStates.length = 0 then 0
       else ((countStatus .submitted s : ℚ) + (countStatus .answered s : ℚ)) /
              (s.questionStates.length : ℚ) * 100) := by
  unfold getQuestionProgress countStatus
  refine ⟨by simp, ?_, ?_, ?_, ?_, ?_⟩
  · simp [List.countP_eq_length_filter]
  · simp [List.countP_eq_length_filter]
  · simp [List.countP_eq_length_filter]
  · simp [List.countP_eq_length_filter]
  · rcases Nat.eq_zero_or_pos s.questionStates.length with h0 | h0
    · simp [h0]
    · simp [List.countP_eq_length_filter, Nat.pos_iff_ne_zero.mp h0, h0]

/-- C6, counterexample: question id 999 is outside the configured range
1..10, yet `skipQuestion` creates a `questionStates` entry for it — the
tracker state is not left unchanged for out-of-range ids. -/
theorem C6_counterexample :
    recGet (skipQuestion 999 7 c6s).questionStates 999 =
      some ⟨.skipped, none, none, some 7, none⟩ ∧
    recGet c6s.questionStates 999 = none := by decide

/-- C6, amended: neither operation validates the question id against the
configured range.  `submitQuestion` leaves the state unchanged exactly
when no truthy answer is available (provided or stored), and never
throws; `skipQuestion` always writes a `skipped` entry for the given id,
in or out of range. -/
theorem C6_amended (s : QuizState) (questionId : Nat) (ans : Option String) (t : Int) :
    (effectiveAnswer ans (recGet s.answers questionId) = none →
      submitQuestion questionId ans t s = s) ∧
    (recGet (skipQuestion questionId t s).questionStates questionId).map
      QuestionState.status = some .skipped := by
  constructor
  · intro h
    unfold submitQuestion
    rw [h]
  · simp [skipQuestion, recGet_recSet_self]

/-- C6, witness: the amended theorem applied to the fresh state and the
out-of-range id 999. -/
theorem C6_amended_witness :
    submitQuestion 999 none 7 c6s = c6s ∧
    (recGet (skipQuestion 999 7 c6s).questionStates 999).map QuestionState.status =
      some .skipped :=
  ⟨(C6_amended c6s 999 none 7).1 (by decide), (C6_amended c6s 999 none 7).2⟩

/-- C9: skipping a question and then submitting it with a (non-empty)
answer leaves its final status `submitted` — the skip does not lock the
question. -/
theorem C9_skip_then_submit (s : QuizState) (questionId : Nat) (t1 t2 : Int) (a : String)
    (h : a ≠ "") :
    getQuestionStatus (submitQuestion questionId (some a) t2 (skipQuestion questionId t1 s))
      questionId = .submitted := by
  simp [submitQuestion, effectiveAnswer, jsOrStr, truthyStr, h, getQuestionStatus,
    recGet_recSet_self]

/-- C9, witness: skip question 3, then submit it with the answer `50c`. -/
theorem C9_skip_then_submit_witness :
    "50c" ≠ "" ∧
    getQuestionStatus (submitQuestion 3 (some "50c") 2 (skipQuestion 3 1 ⟨[], [], []⟩)) 3 =
      .submitted :=
  ⟨by decide, C9_skip_then_submit ⟨[], [], []⟩ 3 1 2 "50c" (by decide)⟩

/-- C7, counterexample: for question 3 (target $5.00, at most 2 items) a
selection of three coins summing to exactly $5.00 is within 0.01 of the
target, yet validation rejects it through the max-items guard (with the
too-many-items feedback, not isCorrect = true) — the claim as stated
ignores the item-count precondition.  The last conjunct shows the same
outcome through the exported `validateAnswer` dispatcher. -/
theorem C7_counterexample :
    |totalValue q3items - 5| < 0.01 ∧
    validateDragDropAnswer q3items 5 (some 2) =
      ⟨false, "You can only select up to 2 items.", 0⟩ ∧
    (validateAnswer 3 (.items q3items)).isCorrect = false := by
  refine ⟨?_, by decide, by decide⟩
  norm_num [totalValue, q3items, coin2a, coin2b, coin1]

/-- C7, amended: provided the number of selected items does not trip the
max-items guard, a sum within 0.01 of the target validates as correct,
and a sum differing from the target by more than 0.01 is rejected with
the over-target (too much) feedback when above the target and the
under-target (need more) feedback when below it. -/
theorem C7_amended (l : List CurrencyItem) (target : ℚ) (m : Option Nat)
    (hmax : dragDropTooMany l m = false) :
    (|totalValue l - target| < 0.01 →
      validateDragDropAnswer l target m = ⟨true, "Perfect! You have the exact amount.", 1⟩) ∧
    (target + 0.01 < totalValue l →
      validateDragDropAnswer l target m = ⟨false, overFeedback (totalValue l - target), 0⟩) ∧
    (totalValue l + 0.01 < target →
      validateDragDropAnswer l target m = ⟨false, underFeedback (target - totalValue l), 0⟩) := by
  unfold validateDragDropAnswer
  rw [hmax]
  simp only [Bool.false_eq_true, if_false]
  refine ⟨?_, ?_, ?_⟩
  · intro h
    rw [if_pos h]
  · intro h
    have h1 : ¬ |totalValue l - target| < 0.01 := by
      rw [not_lt]
      calc (0.01 : ℚ) ≤ totalValue l - target := by linarith
        _ ≤ |totalValue l - target| := le_abs_self _
    have h2 : totalValue l > target := by linarith
    rw [if_neg h1, if_pos h2]
  · intro h
    have h1 : ¬ |totalValue l - target| < 0.01 := by
      rw [not_lt, abs_sub_comm]
      calc (0.01 : ℚ) ≤ target - totalValue l := by linarith
        _ ≤ |target - totalValue l| := le_abs_self _
    have h2 : ¬ totalValue l > target := by linarith
    rw [if_neg h1, if_neg h2]

/-- C7, witness: one fifty-cent coin against target $0.50 with the
five-item limit validates as exactly correct. -/
theorem C7_amended_witness :
    dragDropTooMany [coin50] (some 5) = false ∧
    |totalValue [coin50] - 0.50| < 0.01 ∧
    validateDragDropAnswer [coin50] 0.50 (some 5) =
      ⟨true, "Perfect! You have the exact amount.", 1⟩ :=
  ⟨by decide, by norm_num [totalValue, coin50],
   (C7_amended [coin50] 0.50 (some 5) (by decide)).1 (by norm_num [totalValue, coin50])⟩

/-- C8: for a question id with no registered validator (any id outside
1..10), `validateAnswer` returns the validator-not-found result with
isCorrect = false, for every answer payload, instead of throwing. -/
theorem C8_unknown_validator (questionId : Nat) (a : AnswerVal)
    (h : questionId = 0 ∨ 10 < questionId) :
    validateAnswer questionId a =
      ⟨false, "No validator found for question " ++ toString questionId ++ ".", 0⟩ ∧
    (validateAnswer questionId a).isCorrect = false := by
  have hv := validatorFor_eq_none questionId h
  unfold validateAnswer
  rw [hv]
  exact ⟨rfl, rfl⟩

/-- C8, witness: question id 42 with a string payload produces the
validator-not-found result. -/
theorem C8_unknown_validator_witness :
    ((42 : Nat) = 0 ∨ 10 < (42 : Nat)) ∧
    validateAnswer 42 (.str "abc") =
      ⟨false, "No validator found for question " ++ toString (42 : Nat) ++ ".", 0⟩ :=
  ⟨Or.inr (by decide), (C8_unknown_validator 42 (.str "abc") (Or.inr (by decide))).1⟩

/-- C10: the ordering check is non-strict — any non-empty sequence with
no adjacent pair strictly against the configured direction (adjacent
equal values included) validates as correct with score 1, in either
direction. -/
theorem C10_nonstrict_sorting (l : List CurrencyItem) (dir : SortDirection)
    (h1 : l ≠ [])
    (h2 : List.Chain' (fun a b => sortingViolation dir a.value b.value = false) l) :
    validateSortingAnswer l dir = ⟨true, "Perfect! The items are sorted correctly.", 1⟩ := by
  cases l with
  | nil => exact absurd rfl h1
  | cons x rest =>
    have hc : List.Chain (fun a b => sortingViolation dir a.value b.value = false) x rest := h2
    have hs := checkSortedFrom_eq_true dir x rest hc
    simp [validateSortingAnswer, hs]

/-- C10, witness: sequences with an adjacent tie of two-dollar coins
validate as correct in both ascending and descending mode. -/
theorem C10_nonstrict_sorting_witness :
    validateSortingAnswer [coin2a, coin2b, note5] .ascending =
      ⟨true, "Perfect! The items are sorted correctly.", 1⟩ ∧
    validateSortingAnswer [note5, coin2a, coin2b] .descending =
      ⟨true, "Perfect! The items are sorted correctly.", 1⟩ :=
  ⟨C10_nonstrict_sorting [coin2a, coin2b, note5] .ascending (by decide)
    (by norm_num [List.chain'_cons, List.chain'_singleton, sortingViolation,
      coin2a, coin2b, note5]),
   C10_nonstrict_sorting [note5, coin2a, coin2b] .descending (by decide)
    (by norm_num [List.chain'_cons, List.chain'_singleton, sortingViolation,
      coin2a, coin2b, note5])⟩

/-- C2, counterexample: saving the same answer record twice for attempt 1
and question 1 succeeds both times and leaves two stored records for
that attempt/question pair, not one — `saveAnswer` duplicates instead of
overwriting. -/
theorem C2_counterexample :
    isOkB (dbUtils_saveAnswer c2db0 c2a) = true ∧
    isOkB (dbUtils_saveAnswer c2db1 c2a) = true ∧
    c2db2.answers.countP
      (fun p => decide (p.2.attemptId = 1 ∧ p.2.questionId = 1)) = 2 := by decide

/-- C2, amended: `saveAnswer` is not idempotent — every successful call
performs an unconditional insert under a fresh auto-increment id, so a
second call with the same attemptId and questionId appends a second
record rather than overwriting the first. -/
theorem C2_amended (db : QuizDatabase) (a : AnswerRec)
    (h1 : a.attemptId ≠ 0) (h2 : a.questionId ≠ 0) (h3 : a.answer ≠ "") :
    dbUtils_saveAnswer db a =
      .ok (db.nextAnswerId,
        { db with
          answers := db.answers ++ [(db.nextAnswerId, a)],
          nextAnswerId := db.nextAnswerId + 1 }) := by
  unfold dbUtils_saveAnswer validateAnswerRecord
  simp [h1, h2, h3]

/-- C2, witness: the amended theorem applied to the concrete database and
answer record. -/
theorem C2_amended_witness :
    c2a.attemptId ≠ 0 ∧ c2a.questionId ≠ 0 ∧ c2a.answer ≠ "" ∧
    dbUtils_saveAnswer c2db0 c2a =
      .ok (c2db0.nextAnswerId,
        { c2db0 with
          answers := c2db0.answers ++ [(c2db0.nextAnswerId, c2a)],
          nextAnswerId := c2db0.nextAnswerId + 1 }) :=
  ⟨by decide, by decide, by decide,
   C2_amended c2db0 c2a (by decide) (by decide) (by decide)⟩

/-- C3, counterexample: after attempt 1 is completed via `updateAttempt`
(`{ completed: true, score: 85 }`), a further `saveAnswer` against it
succeeds and appends the answer — it is not rejected with an
`AttemptClosedError` and the stored answers do change. -/
theorem C3_counterexample :
    isOkB (dbUtils_updateAttempt c3db0 1 c3upd) = true ∧
    (recGet c3db1.studentAttempts 1).map StudentAttempt.completed = some true ∧
    isOkB (dbUtils_saveAnswer c3db1 c3a) = true ∧
    (dbAfter (dbUtils_saveAnswer c3db1 c3a) c3db1).answers.length =
      c3db1.answers.length + 1 := by decide

/-- C3, amended: `saveAnswer` performs no completed-attempt check — even
when the referenced attempt is already marked completed, the call
succeeds and appends the answer record (no `AttemptClosedError` class
exists in the code). -/
theorem C3_amended (db : QuizDatabase) (a : AnswerRec)
    (_hc : (recGet db.studentAttempts a.attemptId).map StudentAttempt.completed = some true)
    (h1 : a.attemptId ≠ 0) (h2 : a.questionId ≠ 0) (h3 : a.answer ≠ "") :
    dbUtils_saveAnswer db a =
      .ok (db.nextAnswerId,
        { db with
          answers := db.answers ++ [(db.nextAnswerId, a)],
          nextAnswerId := db.nextAnswerId + 1 }) := by
  unfold dbUtils_saveAnswer validateAnswerRecord
  simp [h1, h2, h3]

/-- C3, witness: the amended theorem applied to a database whose attempt 1
is already completed. -/
theorem C3_amended_witness :
    (recGet c3dbW.studentAttempts 1).map StudentAttempt.completed = some true ∧
    dbUtils_saveAnswer c3dbW c3a =
      .ok (c3dbW.nextAnswerId,
        { c3dbW with
          answers := c3dbW.answers ++ [(c3dbW.nextAnswerId, c3a)],
          nextAnswerId := c3dbW.nextAnswerId + 1 }) :=
  ⟨by decide, C3_amended c3dbW c3a (by decide) (by decide) (by decide) (by decide)⟩

/-- C4: evaluation of `createAttempt` at the failing input.  With the
student registered and the attempt insert succeeding but the follow-up
student-update transaction failing, the call reports an error while the
inserted attempt record remains visible and the student's counters are
unchanged — the two effects are not one atomic unit, contradicting both
the claim and the code's own transaction over the two tables.  The last
two conjuncts show the success path for contrast: there both effects
occur. -/
theorem C4_code_bug_eval :
    isOkB (dbUtils_createAttempt c4db0 c4att true false 99).1 = false ∧
    (dbUtils_createAttempt c4db0 c4att true false 99).2.studentAttempts = [(1, c4att)] ∧
    recGet (dbUtils_createAttempt c4db0 c4att true false 99).2.students "s1" =
      some c4student ∧
    isOkB (dbUtils_createAttempt c4db0 c4att true true 99).1 = true ∧
    recGet (dbUtils_createAttempt c4db0 c4att true true 99).2.students "s1" =
      some ⟨"s1", "Sam", "3A", some 99, 1⟩ := by decide
